import Mathlib

/-!
Shallow embedding of the Spotify → Discord presence synchronizer (src/main.py).

Network calls are modelled by passing the remote response as an explicit
argument; filesystem state (the persisted credential record and the callback
handoff file) is carried in the state / passed explicitly.  Wall-clock time
is an explicit rational parameter `now` (seconds, as Python's `time.time()`).
-/

namespace Spotify

/-- Python truthiness of an optional string (`None` and `""` are falsy). -/
def pyTruthyStr : Option String → Bool
  | none => false
  | some s => !s.isEmpty

/-- Python `int()` applied to a float/rational: truncation toward zero. -/
def pyInt (q : ℚ) : ℤ := if 0 ≤ q then ⌊q⌋ else ⌈q⌉

/-- Mutable fields of `SpotifyNowPlaying` used by the credential lifecycle and
the synchronizer, plus the persisted credential record
(`spotify_discord_status.json`, modelled by its single `refresh_token` field:
`none` is JSON null). -/
structure AppState where
  access_token : Option String
  refresh_token : Option String
  token_expires : ℚ
  current_track_id : Option String
  track_start_time : Option ℤ
  disk_refresh_token : Option String
deriving DecidableEq, Repr

/-- Body of a 200 response from the token endpoint:
`{access_token, refresh_token?, expires_in}`. -/
structure TokenResponse where
  access_token : String
  refresh_token : Option String
  expires_in : ℚ
deriving DecidableEq, Repr

/-- Outcome of a POST to the token endpoint: a response with a status code,
or a network-layer exception (`requests` raising). -/
inductive TokenHttp where
  | resp (status : ℕ) (body : TokenResponse)
  | netError
deriving DecidableEq, Repr

/-- Which credential path `get_spotify_access_token` took. -/
inductive AuthEvent where
  | authFlowStarted
  | refreshGrantRequested
deriving DecidableEq, Repr

/-- `SpotifyNowPlaying.save_tokens_to_file`: returns without writing when the
in-memory refresh token is falsy; otherwise rewrites the persisted record. -/
def save_tokens_to_file (st : AppState) : AppState :=
  if pyTruthyStr st.refresh_token then
    { st with disk_refresh_token := st.refresh_token }
  else st

/-- `SpotifyNowPlaying.get_initial_tokens(auth_code)`: authorization-code
grant.  `http` is the token endpoint's answer to the POST (only consulted when
a truthy code is supplied, since the method returns `False` before any request
otherwise). -/
def get_initial_tokens (st : AppState) (now : ℚ) (auth_code : Option String)
    (http : TokenHttp) : AppState × Bool :=
  if !pyTruthyStr auth_code then (st, false)
  else
    match http with
    | .netError => (st, false)
    | .resp status body =>
      if status = 200 then
        let st1 := { st with
          access_token := some body.access_token,
          refresh_token := match body.refresh_token with
            | some r => some r
            | none => st.refresh_token,
          token_expires := now + body.expires_in }
        (save_tokens_to_file st1, true)
      else (st, false)

/-- `SpotifyNowPlaying.get_spotify_access_token`: if no refresh token is
stored, runs the Authorization Flow (`get_auth_code` + `get_initial_tokens`;
the captured code is the `auth_code` argument); otherwise POSTs a
refresh-token grant.  On a non-200 response the stored refresh token is set to
`None`; on a network exception it is kept.  The event list records which path
was taken. -/
def get_spotify_access_token (st : AppState) (now : ℚ) (auth_code : Option String)
    (http : TokenHttp) : AppState × Bool × List AuthEvent :=
  if !pyTruthyStr st.refresh_token then
    let r := get_initial_tokens st now auth_code http
    (r.1, r.2, [.authFlowStarted])
  else
    match http with
    | .netError => (st, false, [.refreshGrantRequested])
    | .resp status body =>
      if status = 200 then
        let st1 := { st with
          access_token := some body.access_token,
          token_expires := now + body.expires_in }
        match body.refresh_token with
        | some r =>
          (save_tokens_to_file { st1 with refresh_token := some r }, true,
            [.refreshGrantRequested])
        | none => (st1, true, [.refreshGrantRequested])
      else
        ({ st with refresh_token := none }, false, [.refreshGrantRequested])

/-- `SpotifyNowPlaying.check_token`: refresh/re-authorize only when there is
no access token or it has expired (`time.time () >= self.token_expires`). -/
def check_token (st : AppState) (now : ℚ) (auth_code : Option String)
    (http : TokenHttp) : AppState × Bool × List AuthEvent :=
  if !pyTruthyStr st.access_token || decide (st.token_expires ≤ now) then
    get_spotify_access_token st now auth_code http
  else (st, true, [])

/-- `SpotifyNowPlaying.__init__` / `ensure_data_file` at process start:
fields reset, refresh token reloaded from the persisted record (a missing
record is created holding null, hence `none`). -/
def initial_state (file_refresh_token : Option String) : AppState :=
  { access_token := none
    refresh_token := file_refresh_token
    token_expires := 0
    current_track_id := none
    track_start_time := none
    disk_refresh_token := file_refresh_token }

/-! ### Track poller -/

/-- `track_info['item']['artists'][i]` — only the `name` field is read. -/
structure ArtistInfo where
  name : String
deriving DecidableEq, Repr

/-- `track_info['item']['album']` — the `images` list is read only through
`images[0]['url']`, so each image is modelled by its url. -/
structure AlbumInfo where
  name : String
  image_urls : List String
deriving DecidableEq, Repr

/-- `track_info['item']`.  `spotify_url` models
`item['external_urls']['spotify']`. -/
structure TrackItem where
  id : String
  name : String
  artists : List ArtistInfo
  album : AlbumInfo
  duration_ms : ℕ
  spotify_url : String
deriving DecidableEq, Repr

/-- A 200 body of the currently-playing endpoint; `progress_ms` is read with
`track_info.get ('progress_ms', 0)`, hence optional. -/
structure TrackInfo where
  item : TrackItem
  progress_ms : Option ℕ
deriving DecidableEq, Repr

/-- Outcome of the GET to the currently-playing endpoint: a response with a
status code (the body is only consulted on 200), or a network-layer
exception (e.g. the 5-second timeout firing). -/
inductive TrackHttp where
  | resp (status : ℕ) (body : TrackInfo)
  | netError
deriving DecidableEq, Repr

/-- `SpotifyNowPlaying.get_current_track`: runs `check_token` first and
returns `None` without a request when it fails; otherwise 200 maps to the
parsed body and everything else (204, other statuses, network errors) maps to
`None`.  The `Bool` component records whether the currently-playing request
was issued at all. -/
def get_current_track (st : AppState) (now : ℚ) (auth_code : Option String)
    (tokenHttp : TokenHttp) (trackHttp : TrackHttp) :
    AppState × Option TrackInfo × Bool :=
  let c := check_token st now auth_code tokenHttp
  if !c.2.1 then (c.1, none, false)
  else
    match trackHttp with
    | .netError => (c.1, none, true)
    | .resp status body =>
      if status = 200 then (c.1, some body, true)
      else (c.1, none, true)

/-! ### Presence synchronizer -/

/-- Calls issued on the Discord RPC client by one `update_discord_status`
run. -/
inductive RpcEffect where
  | clear
  | update (details state_line : String) (large_image : Option String)
      (large_text : String) (small_image small_text : String)
      (start_ts stop_ts : Option ℤ) (button_url : String)
deriving DecidableEq, Repr

/-- `SpotifyNowPlaying.update_discord_status(track_info)`.
`rpcConnected` models `self.discord_rpc` being non-`None`; `clearOk` models
whether the `clear()` call raises (when it does, the exception is caught and
`current_track_id` is left unset, since the assignment follows the call inside
the `try`).  The effect list records the RPC calls issued. -/
def update_discord_status (st : AppState) (now : ℚ) (rpcConnected clearOk : Bool)
    (track_info : Option TrackInfo) : AppState × List RpcEffect :=
  if !rpcConnected then (st, [])
  else
    match track_info with
    | none =>
      if clearOk then ({ st with current_track_id := none }, [.clear])
      else (st, [.clear])
    | some ti =>
      let tid := ti.item.id
      let st1 :=
        if some tid ≠ st.current_track_id then
          { st with
            current_track_id := some tid,
            track_start_time :=
              some (pyInt (now - (ti.progress_ms.getD 0 : ℚ) / 1000)) }
        else st
      (st1,
        [.update (ti.item.name.take 128)
          ((String.intercalate ", " (ti.item.artists.map (·.name))).take 128)
          ti.item.album.image_urls.head?
          (ti.item.album.name.take 128)
          "spotify" "Listening on Spotify"
          st1.track_start_time
          (st1.track_start_time.map (· + ((ti.item.duration_ms / 1000 : ℕ) : ℤ)))
          ti.item.spotify_url])

/-- A sequence of synchronizer calls, each at its own wall-clock time. -/
def syncMany (st : AppState) (rpcConnected clearOk : Bool)
    (polls : List (ℚ × Option TrackInfo)) : AppState :=
  polls.foldl (fun s p => (update_discord_status s p.1 rpcConnected clearOk p.2).1) st

/-! ### Authorization Flow callback listener -/

/-- Split a character list on a separator character; always returns at least
one (possibly empty) piece, like Python's `str.split` with a separator. -/
def splitOnChar (sep : Char) : List Char → List (List Char)
  | [] => [[]]
  | c :: rest =>
    let r := splitOnChar sep rest
    if c = sep then [] :: r
    else
      match r with
      | [] => [[c]]
      | h :: t => (c :: h) :: t

/-- `urllib.parse.urlparse` restricted to the path/query split: the path is
everything before the first `?`, the query everything after it. -/
def urlsplitPathQuery (raw : String) : String × String :=
  match splitOnChar ('?') raw.toList with
  | [] => ("", "")
  | p :: rest => (String.mk p, String.mk (List.intercalate ['?'] rest))

/-- `urllib.parse.parse_qs (query).get (key, [None])[0]`, restricted to
queries without percent-escapes (the only kind exercised here): fields split
on `&`, each field split at its first `=`; fields without `=` or with a blank
value are dropped; the first value for `key` is returned. -/
def parse_qs_lookup (query key : String) : Option String :=
  let pairs := (splitOnChar ('&') query.toList).filterMap fun f =>
    match splitOnChar ('=') f with
    | [] => none
    | [_] => none
    | k :: vs =>
      let v := List.intercalate ['='] vs
      if v = [] then none else some (k, v)
  ((pairs.filter fun p => p.1 = key.toList).head?).map fun p => String.mk p.2

/-- `CallbackHandler.do_GET` on a raw request path: returns the HTTP response
status and the code written to `callback_code.txt` (`none` when the file is
not written).  `/callback` with a code responds 200 and writes the code;
`/callback` without one responds 400; any other path responds 404. -/
def do_GET (rawPath : String) : ℕ × Option String :=
  let pq := urlsplitPathQuery rawPath
  if pq.1 = "/callback" then
    match parse_qs_lookup pq.2 "code" with
    | some c => (200, some c)
    | none => (400, none)
  else (404, none)

/-- `server.timeout = 30` in `get_auth_code`: the bound, in seconds, on
waiting for the single callback request. -/
def server_timeout_seconds : ℕ := 30

/-- `SpotifyNowPlaying.get_auth_code`: `server.handle_request ()` serves at
most one request (`request = none` models the 30-second timeout expiring with
no request).  Afterwards `callback_code.txt` is read, deleted and returned if
it exists; `callback_file` is its prior content (`none` = absent). -/
def get_auth_code (request : Option String) (callback_file : Option String) :
    Option String :=
  match request with
  | none => callback_file
  | some raw =>
    match (do_GET raw).2 with
    | some c => some c
    | none => callback_file

/-! ### Concrete fixtures used by counterexamples and witnesses -/

/-- Freshly started process: no credentials, empty SyncState, null record. -/
def exInit : AppState := ⟨none, none, 0, none, none, none⟩

/-- Steady state while showing track `"T1"`: a valid access token expiring at
100, the refresh token persisted, and the track anchored at instant 5. -/
def exPlaying : AppState := ⟨some "tok", some "rt", 100, some "T1", some 5, some "rt"⟩

/-- Snapshot item for track `"T1"`. -/
def exItemT1 : TrackItem := ⟨"T1", "Song", [⟨"Artist"⟩], ⟨"Album", ["img"]⟩, 200000, "url"⟩

/-- First poll of `"T1"`, at 5000 ms of progress. -/
def exT1a : TrackInfo := ⟨exItemT1, some 5000⟩

/-- Later poll of `"T1"`, at 15000 ms of progress. -/
def exT1b : TrackInfo := ⟨exItemT1, some 15000⟩

/-- Snapshot for a different track `"T2"`. -/
def exT2 : TrackInfo := ⟨⟨"T2", "Song2", [⟨"Artist2"⟩], ⟨"Album2", []⟩, 180000, "url2"⟩, some 0⟩

/-- A successful token-endpoint body. -/
def exTok : TokenResponse := ⟨"newtok", some "newrt", 3600⟩

/-! ### Helper lemmas -/

lemma pyTruthyStr_none : pyTruthyStr none = false := rfl

lemma update_same_id (st : AppState) (now : ℚ) (clearOk : Bool) (ti : TrackInfo)
    (h : st.current_track_id = some ti.item.id) :
    (update_discord_status st now true clearOk (some ti)).1 = st := by
  simp [update_discord_status, h]

lemma syncMany_same_id (st : AppState) (clearOk : Bool) (tid : String)
    (h : st.current_track_id = some tid) :
    ∀ polls : List (ℚ × TrackInfo), (∀ p ∈ polls, p.2.item.id = tid) →
      syncMany st true clearOk (polls.map fun p => (p.1, some p.2)) = st
  | [], _ => rfl
  | p :: ps, hall => by
    have hid : p.2.item.id = tid := hall p (List.mem_cons_self _ _)
    have h1 : (update_discord_status st p.1 true clearOk (some p.2)).1 = st :=
      update_same_id st p.1 clearOk p.2 (by rw [hid]; exact h)
    have ihp := syncMany_same_id st clearOk tid h ps
      (fun q hq => hall q (List.mem_cons_of_mem _ hq))
    simpa [syncMany, h1] using ihp

lemma check_token_authflow_events (s : AppState) (n : ℚ) (ac : Option String)
    (h2 : TokenHttp)
    (hna : pyTruthyStr s.refresh_token = false)
    (hcond : (!pyTruthyStr s.access_token || decide (s.token_expires ≤ n)) = true) :
    (check_token s n ac h2).2.2 = [.authFlowStarted] := by
  rw [check_token, if_pos hcond, get_spotify_access_token.eq_def, hna]
  rfl

lemma save_tokens_fields (s : AppState) :
    (save_tokens_to_file s).access_token = s.access_token ∧
    (save_tokens_to_file s).refresh_token = s.refresh_token ∧
    (save_tokens_to_file s).token_expires = s.token_expires ∧
    (save_tokens_to_file s).current_track_id = s.current_track_id ∧
    (save_tokens_to_file s).track_start_time = s.track_start_time := by
  unfold save_tokens_to_file; split <;> simp

lemma save_tokens_disk (s : AppState) :
    (pyTruthyStr s.refresh_token = true →
      (save_tokens_to_file s).disk_refresh_token = s.refresh_token) ∧
    (pyTruthyStr s.refresh_token = false →
      (save_tokens_to_file s).disk_refresh_token = s.disk_refresh_token) := by
  unfold save_tokens_to_file; split <;> simp_all

/-! ### Claims -/

/-- C1: starting from a state not showing `tid`, a run of synchronizer calls
whose snapshots all carry track id `tid` computes `track_start_time` exactly
once — at the first snapshot, from that snapshot's wall-clock time and
`progress_ms` — and every subsequent call of the run leaves the state
(in particular `current_track_id` and `track_start_time`) unchanged. -/
theorem track_start_anchor_computed_once
    (st : AppState) (clearOk : Bool) (tid : String)
    (t0 : ℚ) (ti0 : TrackInfo) (rest : List (ℚ × TrackInfo))
    (hne : st.current_track_id ≠ some tid)
    (h0 : ti0.item.id = tid)
    (hrest : ∀ p ∈ rest, p.2.item.id = tid) :
    (update_discord_status st t0 true clearOk (some ti0)).1.current_track_id = some tid ∧
    (update_discord_status st t0 true clearOk (some ti0)).1.track_start_time =
      some (pyInt (t0 - (ti0.progress_ms.getD 0 : ℚ) / 1000)) ∧
    syncMany (update_discord_status st t0 true clearOk (some ti0)).1 true clearOk
      (rest.map fun p => (p.1, some p.2)) =
      (update_discord_status st t0 true clearOk (some ti0)).1 := by
  have hne2 : ¬ (some tid = st.current_track_id) := fun hEq => hne hEq.symm
  refine ⟨?_, ?_, ?_⟩
  · simp [update_discord_status, h0, hne2]
  · simp [update_discord_status, h0, hne2]
  · exact syncMany_same_id _ clearOk tid
      (by simp [update_discord_status, h0, hne2]) rest hrest

/-- C1 witness: polls of `"T1"` at times 100 and 110 — the anchor is set by
the first poll to `pyInt (100 - 5000/1000) = 95` and the second poll changes
nothing. -/
theorem track_start_anchor_computed_once_witness :
    exInit.current_track_id ≠ some "T1" ∧
    ((update_discord_status exInit 100 true true (some exT1a)).1.current_track_id =
        some "T1" ∧
     (update_discord_status exInit 100 true true (some exT1a)).1.track_start_time =
        some (pyInt (100 - (exT1a.progress_ms.getD 0 : ℚ) / 1000)) ∧
     syncMany (update_discord_status exInit 100 true true (some exT1a)).1 true true
       ([((110 : ℚ), exT1b)].map fun p => (p.1, some p.2)) =
       (update_discord_status exInit 100 true true (some exT1a)).1) :=
  ⟨by decide,
    track_start_anchor_computed_once exInit true "T1" 100 exT1a [((110 : ℚ), exT1b)]
      (by decide) rfl (by decide)⟩

/-- C2 counterexample: with a valid access token, a poll whose
currently-playing request fails at the network layer returns `None` — and the
synchronizer, fed that result, issues a presence `clear` and mutates SyncState
(`current_track_id` goes from `some "T1"` to `none`), contradicting the claim
that a transport error never mutates SyncState and never triggers a clear. -/
theorem poll_error_state_change_cex :
    (get_current_track exPlaying 50 none (.resp 500 exTok) .netError).2.1 = none ∧
    (update_discord_status exPlaying 50 true true
      (get_current_track exPlaying 50 none (.resp 500 exTok) .netError).2.1).1.current_track_id
      = none ∧
    exPlaying.current_track_id = some "T1" ∧
    (update_discord_status exPlaying 50 true true
      (get_current_track exPlaying 50 none (.resp 500 exTok) .netError).2.1).2 = [.clear] :=
  ⟨rfl, rfl, rfl, rfl⟩

/-- C2 amended: a transport-error poll leaves the credential state unchanged
and returns `None` — the same value as "nothing playing" — so the synchronizer
then issues a presence `clear` and resets `current_track_id` to `none`, with
only `track_start_time` left unchanged. -/
theorem poll_transport_error_behavior
    (st : AppState) (now : ℚ) (ac : Option String) (th : TokenHttp)
    (hacc : pyTruthyStr st.access_token = true)
    (hexp : now < st.token_expires) :
    (get_current_track st now ac th .netError).1 = st ∧
    (get_current_track st now ac th .netError).2.1 = none ∧
    (update_discord_status st now true true none).1.current_track_id = none ∧
    (update_discord_status st now true true none).1.track_start_time = st.track_start_time ∧
    (update_discord_status st now true true none).2 = [.clear] := by
  have hlt : ¬ (st.token_expires ≤ now) := not_le.mpr hexp
  refine ⟨?_, ?_, rfl, rfl, rfl⟩
  · simp [get_current_track, check_token, hacc, hlt]
  · simp [get_current_track, check_token, hacc, hlt]

/-- C2 amended witness: the concrete playing state at time 50. -/
theorem poll_transport_error_behavior_witness :
    pyTruthyStr exPlaying.access_token = true ∧ (50 : ℚ) < exPlaying.token_expires ∧
    ((get_current_track exPlaying 50 none (.resp 500 exTok) .netError).1 = exPlaying ∧
     (get_current_track exPlaying 50 none (.resp 500 exTok) .netError).2.1 = none ∧
     (update_discord_status exPlaying 50 true true none).1.current_track_id = none ∧
     (update_discord_status exPlaying 50 true true none).1.track_start_time =
       exPlaying.track_start_time ∧
     (update_discord_status exPlaying 50 true true none).2 = [.clear]) :=
  ⟨rfl, by decide,
    poll_transport_error_behavior exPlaying 50 none (.resp 500 exTok) rfl (by decide)⟩

/-- C3 counterexample: the poller does not return three distinguishable
results — a 204 (nothing playing), a transport error, and a failed credential
check all return the identical value `None`, so credential failure is not
distinguishable from "nothing playing". -/
theorem poll_results_indistinguishable_cex :
    (get_current_track exPlaying 50 none (.resp 500 exTok) (.resp 204 exT2)).2.1 = none ∧
    (get_current_track exPlaying 50 none (.resp 500 exTok) .netError).2.1 = none ∧
    (get_current_track exInit 50 none .netError .netError).2.1 = none :=
  ⟨rfl, rfl, rfl⟩

/-- C3 amended: the fetch returns only two distinguishable values — HTTP 200
maps to the parsed snapshot, while 204, any other status, a network timeout,
and a failed credential check all map to `None` (the last without issuing the
currently-playing request). -/
theorem fetch_two_outcomes
    (st : AppState) (now : ℚ) (ac : Option String) (th : TokenHttp)
    (body : TrackInfo) (status : ℕ)
    (hacc : pyTruthyStr st.access_token = true)
    (hexp : now < st.token_expires) :
    (get_current_track st now ac th (.resp 200 body)).2 = (some body, true) ∧
    (status ≠ 200 → (get_current_track st now ac th (.resp status body)).2 = (none, true)) ∧
    (get_current_track st now ac th .netError).2 = (none, true) ∧
    (∀ st2 : AppState, pyTruthyStr st2.access_token = false →
      pyTruthyStr st2.refresh_token = false →
      ∀ (th2 : TokenHttp) (trackHttp : TrackHttp),
        (get_current_track st2 now none th2 trackHttp).2 = (none, false)) := by
  have hlt : ¬ (st.token_expires ≤ now) := not_le.mpr hexp
  refine ⟨?_, ?_, ?_, ?_⟩
  · simp [get_current_track, check_token, hacc, hlt]
  · intro h200
    simp [get_current_track, check_token, hacc, hlt, h200]
  · simp [get_current_track, check_token, hacc, hlt]
  · intro st2 ha2 hr2 th2 trackHttp
    simp [get_current_track, check_token, get_spotify_access_token,
      get_initial_tokens, ha2, hr2, pyTruthyStr_none]

/-- C3 amended witness: concrete polls at time 50 against the playing state,
with 204 instantiating the non-200 case and a fresh state for credential
failure. -/
theorem fetch_two_outcomes_witness :
    pyTruthyStr exPlaying.access_token = true ∧ (50 : ℚ) < exPlaying.token_expires ∧
    (get_current_track exPlaying 50 none (.resp 500 exTok) (.resp 200 exT2)).2 =
      (some exT2, true) ∧
    (get_current_track exPlaying 50 none (.resp 500 exTok) (.resp 204 exT2)).2 =
      (none, true) ∧
    (get_current_track exPlaying 50 none (.resp 500 exTok) .netError).2 = (none, true) ∧
    (get_current_track exInit 50 none .netError .netError).2 = (none, false) :=
  ⟨rfl, by decide,
    (fetch_two_outcomes exPlaying 50 none (.resp 500 exTok) exT2 204 rfl (by decide)).1,
    (fetch_two_outcomes exPlaying 50 none (.resp 500 exTok) exT2 204 rfl
      (by decide)).2.1 (by decide),
    (fetch_two_outcomes exPlaying 50 none (.resp 500 exTok) exT2 204 rfl (by decide)).2.2.1,
    (fetch_two_outcomes exPlaying 50 none (.resp 500 exTok) exT2 204 rfl
      (by decide)).2.2.2 exInit rfl rfl .netError .netError⟩

/-- C4: a refresh grant answered with any non-2xx status clears the stored
refresh token and reports failure, and the next `check_token` call that finds
the access token unusable runs the full Authorization Flow instead of
retrying the refresh grant. -/
theorem refresh_failure_forces_reauth
    (st : AppState) (now now2 : ℚ) (status : ℕ) (body : TokenResponse)
    (ac2 : Option String) (http2 : TokenHttp)
    (hrt : pyTruthyStr st.refresh_token = true)
    (hfail : ¬ (200 ≤ status ∧ status < 300))
    (hmono : now ≤ now2)
    (hbad : pyTruthyStr st.access_token = false ∨ st.token_expires ≤ now) :
    (get_spotify_access_token st now none (.resp status body)).2.1 = false ∧
    (get_spotify_access_token st now none (.resp status body)).1.refresh_token = none ∧
    (get_spotify_access_token st now none (.resp status body)).2.2 =
      [.refreshGrantRequested] ∧
    (check_token (get_spotify_access_token st now none (.resp status body)).1
        now2 ac2 http2).2.2 = [.authFlowStarted] := by
  have h200 : ¬ (status = 200) := by
    rintro rfl; exact hfail ⟨le_refl _, by norm_num⟩
  have hr : get_spotify_access_token st now none (.resp status body) =
      ({ st with refresh_token := none }, false, [.refreshGrantRequested]) := by
    simp [get_spotify_access_token, hrt, h200]
  refine ⟨by rw [hr], by rw [hr], by rw [hr], ?_⟩
  rw [hr]
  apply check_token_authflow_events
  · rfl
  · rcases hbad with h | h
    · simp [h]
    · simp [decide_eq_true_eq]
      right
      exact le_trans h hmono

/-- C4 witness: a 401 refresh answer at time 150 (the token expired at 100);
the follow-up `check_token` at time 160 starts the Authorization Flow. -/
theorem refresh_failure_forces_reauth_witness :
    pyTruthyStr exPlaying.refresh_token = true ∧
    ¬ (200 ≤ 401 ∧ 401 < 300) ∧ (150 : ℚ) ≤ 160 ∧ exPlaying.token_expires ≤ 150 ∧
    ((get_spotify_access_token exPlaying 150 none (.resp 401 exTok)).2.1 = false ∧
     (get_spotify_access_token exPlaying 150 none (.resp 401 exTok)).1.refresh_token =
       none ∧
     (get_spotify_access_token exPlaying 150 none (.resp 401 exTok)).2.2 =
       [.refreshGrantRequested] ∧
     (check_token (get_spotify_access_token exPlaying 150 none (.resp 401 exTok)).1
        160 none .netError).2.2 = [.authFlowStarted]) :=
  ⟨rfl, by decide, by decide, by decide,
    refresh_failure_forces_reauth exPlaying 150 160 401 exTok none .netError rfl
      (by decide) (by decide) (Or.inr (by decide))⟩

/-- C5: whenever the incoming snapshot's track id differs from
`current_track_id`, the synchronizer sets `current_track_id` to the new id and
recomputes `track_start_time` as the current time minus `progress_ms / 1000`
(truncated to an integer by Python's `int ()`). -/
theorem track_transition_recomputes_start
    (st : AppState) (now : ℚ) (clearOk : Bool) (ti : TrackInfo) (p : ℕ)
    (hne : st.current_track_id ≠ some ti.item.id)
    (hp : ti.progress_ms = some p) :
    (update_discord_status st now true clearOk (some ti)).1.current_track_id =
      some ti.item.id ∧
    (update_discord_status st now true clearOk (some ti)).1.track_start_time =
      some (pyInt (now - (p : ℚ) / 1000)) := by
  have hne2 : ¬ (some ti.item.id = st.current_track_id) := fun hEq => hne hEq.symm
  constructor
  · simp [update_discord_status, hne2]
  · simp [update_discord_status, hne2, hp]

/-- C5 witness: a transition from `"T1"` to `"T2"` at time 100 with
`progress_ms = 0`. -/
theorem track_transition_recomputes_start_witness :
    exPlaying.current_track_id ≠ some exT2.item.id ∧ exT2.progress_ms = some 0 ∧
    ((update_discord_status exPlaying 100 true true (some exT2)).1.current_track_id =
        some exT2.item.id ∧
     (update_discord_status exPlaying 100 true true (some exT2)).1.track_start_time =
        some (pyInt (100 - ((0 : ℕ) : ℚ) / 1000))) :=
  ⟨by decide, rfl,
    track_transition_recomputes_start exPlaying 100 true exT2 0 (by decide) rfl⟩

/-- C6 counterexample: after a `NoTrack` result the SyncState is not reset to
empty — `current_track_id` becomes `none` but `track_start_time` keeps its
previous value `some 5`, contradicting "resets SyncState to empty (both
`current_track_id` and `track_start_instant` absent)". -/
theorem no_track_retains_start_cex :
    (update_discord_status exPlaying 50 true true none).1.current_track_id = none ∧
    (update_discord_status exPlaying 50 true true none).1.track_start_time = some 5 :=
  ⟨rfl, rfl⟩

/-- C6 amended: on a `NoTrack` result (with the RPC client connected and the
clear call succeeding) the synchronizer always issues exactly one presence
`clear` and resets `current_track_id` to `none` while `track_start_time`
retains its previous value; a repeated `NoTrack` issues the (idempotent)
clear again and leaves the state completely unchanged. -/
theorem no_track_clear_behavior (st : AppState) (t1 t2 : ℚ) :
    (update_discord_status st t1 true true none).2 = [.clear] ∧
    (update_discord_status st t1 true true none).1.current_track_id = none ∧
    (update_discord_status st t1 true true none).1.track_start_time = st.track_start_time ∧
    update_discord_status (update_discord_status st t1 true true none).1 t2 true true none =
      ((update_discord_status st t1 true true none).1, [.clear]) :=
  ⟨rfl, rfl, rfl, rfl⟩

/-- C7: `get_initial_tokens` on a 200 response stores the access token, the
returned refresh token when present (keeping the old one otherwise), sets the
expiry to `now + expires_in`, persists a truthy refresh token, and returns
true; on any non-2xx response or a network failure it returns false with the
state exactly as before. -/
theorem exchange_code_contract
    (st : AppState) (now : ℚ) (code : String) (body : TokenResponse) (status : ℕ)
    (hcode : code ≠ "") :
    (let r := get_initial_tokens st now (some code) (.resp 200 body)
     r.2 = true ∧
     r.1.access_token = some body.access_token ∧
     r.1.token_expires = now + body.expires_in ∧
     r.1.refresh_token =
       (match body.refresh_token with | some r2 => some r2 | none => st.refresh_token) ∧
     r.1.current_track_id = st.current_track_id ∧
     r.1.track_start_time = st.track_start_time ∧
     (pyTruthyStr r.1.refresh_token = true →
        r.1.disk_refresh_token = r.1.refresh_token) ∧
     (pyTruthyStr r.1.refresh_token = false →
        r.1.disk_refresh_token = st.disk_refresh_token)) ∧
    (¬ (200 ≤ status ∧ status < 300) →
      get_initial_tokens st now (some code) (.resp status body) = (st, false)) ∧
    get_initial_tokens st now (some code) .netError = (st, false) := by
  have hc : pyTruthyStr (some code) = true := by
    simp [pyTruthyStr, Bool.eq_false_iff, String.isEmpty_iff, hcode]
  have hr : get_initial_tokens st now (some code) (.resp 200 body) =
      (save_tokens_to_file { st with
        access_token := some body.access_token,
        refresh_token := match body.refresh_token with
          | some r2 => some r2
          | none => st.refresh_token,
        token_expires := now + body.expires_in }, true) := by
    simp [get_initial_tokens, hc]
  refine ⟨?_, ?_, ?_⟩
  · simp only [hr]
    obtain ⟨ha, hrf, hexp2, hcur, hts⟩ := save_tokens_fields
      { st with
        access_token := some body.access_token,
        refresh_token := match body.refresh_token with
          | some r2 => some r2
          | none => st.refresh_token,
        token_expires := now + body.expires_in }
    obtain ⟨hd1, hd2⟩ := save_tokens_disk
      { st with
        access_token := some body.access_token,
        refresh_token := match body.refresh_token with
          | some r2 => some r2
          | none => st.refresh_token,
        token_expires := now + body.expires_in }
    refine ⟨trivial, ha, hexp2, hrf, hcur, hts, ?_, ?_⟩
    · intro ht
      rw [hrf] at ht ⊢
      exact hd1 ht
    · intro ht
      rw [hrf] at ht
      exact hd2 ht
  · intro h
    have h200 : ¬ (status = 200) := by
      rintro rfl; exact h ⟨le_refl _, by norm_num⟩
    simp [get_initial_tokens, hc, h200]
  · simp [get_initial_tokens, hc]

/-- C7 witness: the fresh state exchanging code `"abc123"`, with 500 as the
concrete failing status. -/
theorem exchange_code_contract_witness :
    "abc123" ≠ "" ∧
    ((let r := get_initial_tokens exInit 0 (some "abc123") (.resp 200 exTok)
      r.2 = true ∧
      r.1.access_token = some exTok.access_token ∧
      r.1.token_expires = 0 + exTok.expires_in ∧
      r.1.refresh_token =
        (match exTok.refresh_token with | some r2 => some r2 | none => exInit.refresh_token) ∧
      r.1.current_track_id = exInit.current_track_id ∧
      r.1.track_start_time = exInit.track_start_time ∧
      (pyTruthyStr r.1.refresh_token = true →
        r.1.disk_refresh_token = r.1.refresh_token) ∧
      (pyTruthyStr r.1.refresh_token = false →
        r.1.disk_refresh_token = exInit.disk_refresh_token)) ∧
     (¬ (200 ≤ 500 ∧ 500 < 300) →
       get_initial_tokens exInit 0 (some "abc123") (.resp 500 exTok) = (exInit, false)) ∧
     get_initial_tokens exInit 0 (some "abc123") .netError = (exInit, false)) :=
  ⟨by decide, exchange_code_contract exInit 0 "abc123" exTok 500 (by decide)⟩

/-- C8: a callback request `GET /callback?code=abc123` is answered with status
200 and the Authorization Flow captures exactly `"abc123"`; a callback request
without a `code` query parameter is answered with status 400 and no code is
captured (the listener handles at most the single request passed to
`get_auth_code`). -/
theorem callback_capture_contract :
    do_GET "/callback?code=abc123" = (200, some "abc123") ∧
    get_auth_code (some "/callback?code=abc123") none = some "abc123" ∧
    do_GET "/callback" = (400, none) ∧
    get_auth_code (some "/callback") none = none :=
  ⟨rfl, rfl, rfl, rfl⟩

/-- C9: the callback listener waits at most `server.timeout = 30` seconds;
when no request arrives within the bound, `get_auth_code` returns no code
instead of blocking. -/
theorem auth_timeout_no_code :
    server_timeout_seconds = 30 ∧ get_auth_code none none = none :=
  ⟨rfl, rfl⟩

/-- C10: `save_tokens_to_file` is a no-op whenever the in-memory refresh token
is falsy, so the clearing performed by a failed refresh is never persisted:
after a non-200 refresh answer the in-memory refresh token is `none` while the
on-disk record still holds the old (revoked) token, and a process restart
reloads that dead token. -/
theorem cleared_refresh_never_persisted
    (st : AppState) (now : ℚ) (status : ℕ) (body : TokenResponse)
    (hrt : pyTruthyStr st.refresh_token = true)
    (hfail : status ≠ 200)
    (hdisk : st.disk_refresh_token = st.refresh_token) :
    (∀ s : AppState, pyTruthyStr s.refresh_token = false → save_tokens_to_file s = s) ∧
    (get_spotify_access_token st now none (.resp status body)).1.refresh_token = none ∧
    (get_spotify_access_token st now none (.resp status body)).1.disk_refresh_token =
      st.refresh_token ∧
    (initial_state
        (get_spotify_access_token st now none (.resp status body)).1.disk_refresh_token
      ).refresh_token = st.refresh_token := by
  have hr : get_spotify_access_token st now none (.resp status body) =
      ({ st with refresh_token := none }, false, [.refreshGrantRequested]) := by
    simp [get_spotify_access_token, hrt, hfail]
  refine ⟨?_, by rw [hr], ?_, ?_⟩
  · intro s hs
    simp [save_tokens_to_file, hs]
  · rw [hr]; exact hdisk
  · rw [hr]; exact hdisk

/-- C10 witness: the playing state (whose record holds `"rt"`) after a 401
refresh answer at time 150. -/
theorem cleared_refresh_never_persisted_witness :
    pyTruthyStr exPlaying.refresh_token = true ∧ (401 : ℕ) ≠ 200 ∧
    exPlaying.disk_refresh_token = exPlaying.refresh_token ∧
    ((∀ s : AppState, pyTruthyStr s.refresh_token = false → save_tokens_to_file s = s) ∧
     (get_spotify_access_token exPlaying 150 none (.resp 401 exTok)).1.refresh_token =
       none ∧
     (get_spotify_access_token exPlaying 150 none (.resp 401 exTok)).1.disk_refresh_token
       = exPlaying.refresh_token ∧
     (initial_state
        (get_spotify_access_token exPlaying 150 none (.resp 401 exTok)).1.disk_refresh_token
       ).refresh_token = exPlaying.refresh_token) :=
  ⟨rfl, by decide, rfl,
    cleared_refresh_never_persisted exPlaying 150 401 exTok rfl (by decide) rfl⟩

end Spotify
